import Mathlib

/-!
Verification of the Streamlit agent-query front-end
(`src/frontend_streamlit_interface/streamlit_app.py`).

The Python file is a thin HTTP-glue layer: it builds an ordered list of
candidate endpoint paths, probes them in order, and returns the first
response that is accepted (status code in the accepted set and body of the
expected JSON shape).  We embed the JSON data model, the candidate-list
construction (`fetch_agents` lines 59-68), the three probing functions
(`fetch_agents`, `submit_query`, `fetch_history`), the agent-identity
computation of `_sidebar_ui` (line 270), the session-history operations,
and the heuristic response renderer `_render_response`.

The HTTP backend is modelled as a function from request to outcome; a
response body that is not valid JSON is `none` (Python's `r.json()`
raises, which the code catches).  Wall-clock timestamps and latencies are
abstracted as integers carried through unchanged.
-/

/-- A JSON value (Python numbers restricted to integers: none of the code
paths we verify distinguish int from float). -/
inductive Json where
  | null
  | bool (b : Bool)
  | num (n : Int)
  | str (s : String)
  | arr (elems : List Json)
  | obj (members : List (String × Json))
  deriving Repr

mutual

/-- Structural equality test for `Json` (Python `==` on these values). -/
def Json.beq : Json → Json → Bool
  | .null, .null => true
  | .bool a, .bool b => a == b
  | .num a, .num b => a == b
  | .str a, .str b => a == b
  | .arr xs, .arr ys => Json.beqArr xs ys
  | .obj xs, .obj ys => Json.beqObj xs ys
  | _, _ => false

def Json.beqArr : List Json → List Json → Bool
  | [], [] => true
  | x :: xs, y :: ys => Json.beq x y && Json.beqArr xs ys
  | _, _ => false

def Json.beqObj : List (String × Json) → List (String × Json) → Bool
  | [], [] => true
  | (k, x) :: xs, (l, y) :: ys => k == l && Json.beq x y && Json.beqObj xs ys
  | _, _ => false

end

instance : BEq Json := ⟨Json.beq⟩

mutual

theorem Json.beq_iff_eq : ∀ a b : Json, Json.beq a b = true ↔ a = b
  | .null, b => by cases b <;> simp [Json.beq]
  | .bool x, b => by cases b <;> simp [Json.beq]
  | .num x, b => by cases b <;> simp [Json.beq]
  | .str x, b => by cases b <;> simp [Json.beq]
  | .arr xs, b => by
      cases b <;> simp [Json.beq]
      exact Json.beqArr_iff_eq xs _
  | .obj xs, b => by
      cases b <;> simp [Json.beq]
      exact Json.beqObj_iff_eq xs _

theorem Json.beqArr_iff_eq : ∀ xs ys : List Json, Json.beqArr xs ys = true ↔ xs = ys
  | [], ys => by cases ys <;> simp [Json.beqArr]
  | x :: xs, ys => by
      cases ys with
      | nil => simp [Json.beqArr]
      | cons y ys =>
          simp [Json.beqArr, Bool.and_eq_true, Json.beq_iff_eq x y,
            Json.beqArr_iff_eq xs ys]

theorem Json.beqObj_iff_eq :
    ∀ xs ys : List (String × Json), Json.beqObj xs ys = true ↔ xs = ys
  | [], ys => by cases ys <;> simp [Json.beqObj]
  | (k, x) :: xs, ys => by
      cases ys with
      | nil => simp [Json.beqObj]
      | cons p ys =>
          obtain ⟨l, y⟩ := p
          simp [Json.beqObj, Bool.and_eq_true, Json.beq_iff_eq x y,
            Json.beqObj_iff_eq xs ys, and_assoc]

end

instance : DecidableEq Json := fun a b =>
  decidable_of_iff (Json.beq a b = true) (Json.beq_iff_eq a b)

/-- First-match association lookup: Python `dict[k]` / `dict.get(k)` on a
dict modelled as its (unique-keyed, insertion-ordered) entry list. -/
def jlookup (k : String) : List (String × Json) → Option Json
  | [] => none
  | (l, v) :: rest => if l = k then some v else jlookup k rest

/-- Python `dict.get(k)` where a missing key yields `None`. -/
def pyGetD (kvs : List (String × Json)) (k : String) : Json :=
  (jlookup k kvs).getD Json.null

/-- Python truthiness of a JSON value (`if x:`). -/
def jtruthy : Json → Bool
  | .null => false
  | .bool b => b
  | .num n => n != 0
  | .str s => !s.isEmpty
  | .arr xs => !xs.isEmpty
  | .obj kvs => !kvs.isEmpty

/-- Python `x or y`: `x` if truthy, else `y`. -/
def pyOr (x y : Json) : Json := if jtruthy x then x else y

def charsStartWith : List Char → List Char → Bool
  | [], _ => true
  | _ :: _, [] => false
  | x :: xs, y :: ys => if x = y then charsStartWith xs ys else false

def charsContain (needle : List Char) : List Char → Bool
  | [] => needle.isEmpty
  | y :: ys => charsStartWith needle (y :: ys) || charsContain needle ys

/-- Python `needle in s` for strings: substring containment. -/
def pyStrIn (needle s : String) : Bool := charsContain needle.toList s.toList

def asciiLower (c : Char) : Char :=
  if 65 ≤ c.toNat ∧ c.toNat ≤ 90 then Char.ofNat (c.toNat + 32) else c

/-- Python `s.lower()` (the paths compared against "agent" are URL paths,
so ASCII case folding is the relevant fragment). -/
def pyLower (s : String) : String := String.mk (s.data.map asciiLower)

/-- Python `needle in v` for a JSON value: key membership for dicts,
substring for strings, element membership for lists, and a `TypeError`
(modelled as `.error`) for null/bool/number. -/
def pyIn (needle : String) : Json → Except Unit Bool
  | .obj kvs => .ok (kvs.any (fun kv => kv.1 == needle))
  | .str s => .ok (pyStrIn needle s)
  | .arr xs => .ok (xs.contains (.str needle))
  | _ => .error ()

/-- The two fixed fallback candidate paths of `fetch_agents`. -/
def fixedAgentCandidates : List String := ["/agents", "/api/agents"]

/-- The `for p in paths.keys()` loop of `fetch_agents` (lines 63-66):
a path containing "agent" (case-insensitive) whose path item contains a
"get" entry is prepended to the candidates unless already present.  The
loop body runs inside the `try`, so an exception (`pyIn` returning
`.error`) abandons the rest of the traversal, keeping the candidates
accumulated so far; the Bool records whether that happened. -/
def agentPathScan : List String → List (String × Json) → List String × Bool
  | candidates, [] => (candidates, false)
  | candidates, (p, v) :: rest =>
    if pyStrIn "agent" (pyLower p) then
      match pyIn "get" v with
      | .error _ => (candidates, true)
      | .ok true =>
          agentPathScan (if candidates.contains p then candidates else p :: candidates) rest
      | .ok false => agentPathScan candidates rest
    else agentPathScan candidates rest

/-- Candidate-list construction of `fetch_agents` (lines 59-68), also
reporting whether the swallowed `except Exception` branch was taken.
`api.get("paths", {})` on a non-dict `api` is `{}`; a "paths" value that
is not a dict makes `paths.keys()` raise before any insertion. -/
def buildAgentCandidatesE (api : Json) : List String × Bool :=
  match api with
  | .obj kvs =>
    match jlookup "paths" kvs with
    | some (.obj pathTable) => agentPathScan fixedAgentCandidates pathTable
    | some _ => (fixedAgentCandidates, true)
    | none => (fixedAgentCandidates, false)
  | _ => (fixedAgentCandidates, false)

/-- The candidate ordering `fetch_agents` actually probes (the exception,
if any, is swallowed). -/
def buildAgentCandidates (api : Json) : List String := (buildAgentCandidatesE api).1

/-- Outcome of one HTTP request: a raised transport error, or a response
with a status code and a body (`none` when `r.json()` would raise). -/
inductive ProbeResult where
  | transportError
  | response (status : Nat) (body : Option Json)
  deriving Repr, DecidableEq

/-- The `for path in candidates: try ... continue` probing loop shared by
the three fetch functions: return the first accepted payload, together
with the list of candidates actually attempted (in order). -/
def probeFirstT {ι α : Type} (f : ι → Option α) : List ι → Option α × List ι
  | [] => (none, [])
  | x :: rest =>
    match f x with
    | some v => (some v, [x])
    | none =>
      let r := probeFirstT f rest
      (r.1, x :: r.2)

/-- The probing loop's result alone. -/
def probeFirst {ι α : Type} (f : ι → Option α) (l : List ι) : Option α :=
  (probeFirstT f l).1

/-- Acceptance test of one `fetch_agents` candidate (lines 71-83): status
must be 200 and the body a JSON list, or a dict whose "agents" entry is a
list; everything else (including a raised `r.json()`) means "try next". -/
def acceptAgents : ProbeResult → Option (List Json)
  | .transportError => none
  | .response status body =>
    if status = 200 then
      match body with
      | some (.arr xs) => some xs
      | some (.obj kvs) =>
        match jlookup "agents" kvs with
        | some (.arr ys) => some ys
        | _ => none
      | _ => none
    else none

/-- Acceptance test of one `fetch_history` candidate (lines 135-158):
status 200 and a list body, or a dict whose "history" entry is a list. -/
def acceptHistory : ProbeResult → Option (List Json)
  | .transportError => none
  | .response status body =>
    if status = 200 then
      match body with
      | some (.arr xs) => some xs
      | some (.obj kvs) =>
        match jlookup "history" kvs with
        | some (.arr ys) => some ys
        | _ => none
      | _ => none
    else none

/-- Acceptance test of one `submit_query` candidate (lines 103-108 and
113-119): status 200 or 201 and any JSON body, returned verbatim; a body
that fails to parse raises inside the `try` and means "try next". -/
def acceptSubmit : ProbeResult → Option Json
  | .transportError => none
  | .response status body => if status = 200 ∨ status = 201 then body else none

/-- `fetch_agents` (lines 51-84): probe the candidates in order, return
the first accepted payload, or `[]` when every candidate fails. -/
def fetch_agents (backend : String → ProbeResult) (api : Json) : List Json :=
  match probeFirst (fun p => acceptAgents (backend p)) (buildAgentCandidates api) with
  | some xs => xs
  | none => []

def historyGlobalCandidates : List String := ["/history", "/api/history"]

def historyScopedCandidates (s : String) : List String :=
  ["/agents/" ++ s ++ "/history", "/api/agents/" ++ s ++ "/history"]

/-- Python truthiness of an `Optional[str]` (`if agent_id:`). -/
def pyTruthyStr : Option String → Bool
  | none => false
  | some s => !s.isEmpty

/-- `fetch_history` (lines 125-160): probe the two global candidates;
on failure, probe the agent-scoped candidates when `agent_id` is truthy;
otherwise return `[]`. -/
def fetch_history (backend : String → ProbeResult) (agentId : Option String) : List Json :=
  match probeFirst (fun p => acceptHistory (backend p)) historyGlobalCandidates with
  | some xs => xs
  | none =>
    match agentId with
    | some s =>
      if s.isEmpty then []
      else
        match probeFirst (fun p => acceptHistory (backend p)) (historyScopedCandidates s) with
        | some xs => xs
        | none => []
    | none => []

/-- The JSON body `submit_query` sends to the global candidates (lines
96-98): `{"query": query}`, with `"agent_id"` added when truthy. -/
def submitPayload (agentId : Option String) (query : String) : Json :=
  match agentId with
  | some s =>
    if s.isEmpty then Json.obj [("query", Json.str query)]
    else Json.obj [("query", Json.str query), ("agent_id", Json.str s)]
  | none => Json.obj [("query", Json.str query)]

def submitGlobalCandidates : List String := ["/query", "/api/query"]

def submitScopedCandidates (s : String) : List String :=
  ["/agents/" ++ s ++ "/query", "/api/agents/" ++ s ++ "/query"]

/-- The uniform failure payload of `submit_query` (line 121). -/
def submitErrorObj : Json :=
  Json.obj [("error", Json.str "Unable to submit query to backend. Please verify API endpoints.")]

/-- One attempted `submit_query` candidate: POST the payload to the path
and test acceptance. -/
def submitProbeStep (backend : String → Json → ProbeResult) (c : String × Json) : Option Json :=
  acceptSubmit (backend c.1 c.2)

/-- `submit_query` (lines 88-121) with the attempted (path, payload)
requests recorded: probe the global POST candidates with the full
payload; on failure and a truthy `agent_id`, probe the agent-scoped
candidates with `{"query": query}`; otherwise return the error object. -/
def submitQueryT (backend : String → Json → ProbeResult) (agentId : Option String)
    (query : String) : Json × List (String × Json) :=
  let payload := submitPayload agentId query
  let r1 := probeFirstT (submitProbeStep backend)
    (submitGlobalCandidates.map (fun p => (p, payload)))
  match r1.1 with
  | some j => (j, r1.2)
  | none =>
    match agentId with
    | some s =>
      if s.isEmpty then (submitErrorObj, r1.2)
      else
        let r2 := probeFirstT (submitProbeStep backend)
          ((submitScopedCandidates s).map (fun p => (p, Json.obj [("query", Json.str query)])))
        match r2.1 with
        | some j => (j, r1.2 ++ r2.2)
        | none => (submitErrorObj, r1.2 ++ r2.2)
    | none => (submitErrorObj, r1.2)

/-- `submit_query`'s return value. -/
def submit_query (backend : String → Json → ProbeResult) (agentId : Option String)
    (query : String) : Json :=
  (submitQueryT backend agentId query).1

/-- The (path, payload) requests `submit_query` actually issues, in order. -/
def submitAttempts (backend : String → Json → ProbeResult) (agentId : Option String)
    (query : String) : List (String × Json) :=
  (submitQueryT backend agentId query).2

/-- The fixed priority list of text-bearing keys `_render_response`
searches (line 368). -/
def primaryTextKeys : List String := ["answer", "response", "output", "result", "content", "text"]

/-- The `for k in (...)` loop of `_render_response` (lines 368-371): the
first key whose value is a string wins; a present non-string value does
not stop the search. -/
def findPrimaryText (kvs : List (String × Json)) : List String → Option String
  | [] => none
  | k :: rest =>
    match jlookup k kvs with
    | some (.str s) => some s
    | _ => findPrimaryText kvs rest

/-- One observable display action of `_render_response` (Streamlit calls
abstracted as events; f-string interpolation of non-string JSON values is
kept symbolic in `refLink`/`refDump`/`refStr`/`writeStr`). -/
inductive RenderEvent where
  | warn (s : String)
  | markdown (s : String)
  | refLink (label url : Json)
  | refDump (r : Json)
  | refStr (r : Json)
  | jsonView (j : Json)
  | writeStr (j : Json)
  deriving Repr, DecidableEq

/-- Rendering of one references/citations/sources entry (lines 380-389):
a dict with a truthy `url` becomes a link labelled by
`title or id or "Source"`; a dict without one is dumped as JSON; anything
else is stringified. -/
def renderRef (r : Json) : RenderEvent :=
  match r with
  | .obj kvs =>
    let label := pyOr (pyGetD kvs "title") (pyOr (pyGetD kvs "id") (Json.str "Source"))
    let url := pyGetD kvs "url"
    if jtruthy url then .refLink label url else .refDump r
  | _ => .refStr r

/-- The dict branch of `_render_response` (lines 365-392): primary-text
card when a truthy string was found, then the references block, then the
always-present raw-JSON expander. -/
def renderDictEvents (kvs : List (String × Json)) : List RenderEvent :=
  let textEvents :=
    match findPrimaryText kvs primaryTextKeys with
    | some s =>
      if s.isEmpty then []
      else [.markdown "<div class=\"ocean-card\">", .markdown s, .markdown "</div>"]
    | none => []
  let refs := pyOr (pyGetD kvs "references") (pyOr (pyGetD kvs "citations") (pyGetD kvs "sources"))
  let refEvents :=
    match refs with
    | .arr rs => if rs.isEmpty then [] else .markdown "##### References" :: rs.map renderRef
    | _ => []
  textEvents ++ refEvents ++ [.jsonView (Json.obj kvs)]

mutual

/-- `_render_response` (lines 359-398) as the ordered list of display
events it emits. -/
def renderResponse : Json → List RenderEvent
  | .null => [.warn "Empty response."]
  | .obj kvs => renderDictEvents kvs
  | .arr xs => renderItems 1 xs
  | j => [.writeStr j]

/-- The list branch (lines 393-396): `enumerate(resp, start=1)` with a
positional label before each recursively rendered element. -/
def renderItems : Nat → List Json → List RenderEvent
  | _, [] => []
  | i, x :: rest =>
    (RenderEvent.markdown ("**Item " ++ toString i ++ "**") :: renderResponse x)
      ++ renderItems (i + 1) rest

end

/-- The agent identity `_sidebar_ui` stores for submissions (line 270):
`a.get("id") or a.get("agent_id") or a.get("name")`. -/
def agentIdentity (a : List (String × Json)) : Json :=
  pyOr (pyGetD a "id") (pyOr (pyGetD a "agent_id") (pyGetD a "name"))

/-- First *present* value among the given keys, regardless of truthiness. -/
def firstPresent (a : List (String × Json)) : List String → Option Json
  | [] => none
  | k :: rest =>
    match jlookup k a with
    | some v => some v
    | none => firstPresent a rest

/-- The identity rule exactly as the claim words it: the first present
field in the priority order id, agent_id, name, label. -/
def claimedAgentIdentityC6 (a : List (String × Json)) : Option Json :=
  firstPresent a ["id", "agent_id", "name", "label"]

/-- The amended identity rule, from the spec's corrected words: the first
truthy field among id, agent_id; otherwise the value of name (null when
absent); the label field is never consulted. -/
def specAgentIdentity (a : List (String × Json)) : Json :=
  if jtruthy (pyGetD a "id") then pyGetD a "id"
  else if jtruthy (pyGetD a "agent_id") then pyGetD a "agent_id"
  else pyGetD a "name"

/-- The interaction dict `_main_panel` appends to the session history
(lines 329-335); wall-clock timestamp and latency abstracted as integers. -/
def interactionEntry (agentId : Option String) (query : String) (resp : Json)
    (timestamp latency : Int) : Json :=
  Json.obj [("agent_id", match agentId with | some s => Json.str s | none => Json.null),
            ("query", Json.str query), ("response", resp),
            ("timestamp", Json.num timestamp), ("latency", Json.num latency)]

/-- The user actions that run against `st.session_state.history`:
submitting a query (lines 319-335), the "Load History" button (lines
288-289), and the "Refresh API & Agents" button (lines 257-260), which
touches only agents/discovery state. -/
inductive SessionOp where
  | submitAction (backend : String → Json → ProbeResult) (agentId : Option String)
      (query : String) (timestamp latency : Int)
  | loadHistoryAction (backend : String → ProbeResult) (agentId : Option String)
  | refreshAction

/-- Effect of one user action on the session interaction log: submit
appends the new interaction, Load History assigns the fetched list,
Refresh leaves the log alone. -/
def applySessionOp (log : List Json) : SessionOp → List Json
  | .submitAction backend aid q ts lat =>
      log ++ [interactionEntry aid q (submit_query backend aid q) ts lat]
  | .loadHistoryAction backend aid => fetch_history backend aid
  | .refreshAction => log

/-- Python `l[-n:]`: the last `n` elements (all of them when shorter). -/
def takeLast {α : Type} (n : Nat) (l : List α) : List α := l.drop (l.length - n)

/-- The sidebar history display (line 292): `reversed(history[-10:])`. -/
def sidebarHistoryView (log : List Json) : List Json := (takeLast 10 log).reverse

/-- The "Recent Interactions" display (line 347): `reversed(history[-5:])`. -/
def recentInteractionsView (log : List Json) : List Json := (takeLast 5 log).reverse

/-- The full ordered candidate list `fetch_history` works through: the
two global paths, then (for a truthy agent id) the two scoped ones. -/
def historyCandidates (agentId : Option String) : List String :=
  historyGlobalCandidates ++
    (match agentId with
     | some s => if s.isEmpty then [] else historyScopedCandidates s
     | none => [])

/-- The full ordered (path, payload) candidate list `submit_query` works
through: the global paths with the full payload, then (for a truthy
agent id) the scoped ones with the query-only payload. -/
def submitCandidates (agentId : Option String) (query : String) : List (String × Json) :=
  submitGlobalCandidates.map (fun p => (p, submitPayload agentId query)) ++
    (match agentId with
     | some s =>
       if s.isEmpty then []
       else (submitScopedCandidates s).map (fun p => (p, Json.obj [("query", Json.str query)]))
     | none => [])

/-- `p` occurs in `l` strictly before some occurrence of `q`. -/
def listedBefore {α : Type} (p q : α) (l : List α) : Prop :=
  ∃ l1 l2, l = l1 ++ p :: l2 ∧ q ∈ l2

theorem probeFirstT_of_forall_none {ι α : Type} (f : ι → Option α) :
    ∀ l : List ι, (∀ x ∈ l, f x = none) → probeFirstT f l = (none, l)
  | [], _ => rfl
  | x :: rest, h => by
      have hx : f x = none := h x (by simp)
      have ih := probeFirstT_of_forall_none f rest (fun y hy => h y (by simp [hy]))
      simp [probeFirstT, hx, ih]

theorem probeFirst_of_forall_none {ι α : Type} (f : ι → Option α) (l : List ι)
    (h : ∀ x ∈ l, f x = none) : probeFirst f l = none := by
  simp [probeFirst, probeFirstT_of_forall_none f l h]

theorem probeFirst_getD_success {ι α : Type} (f : ι → Option α) (d : ι) :
    ∀ (l : List ι) (n : Nat) (v : α), n < l.length →
      (∀ i, i < n → f (l.getD i d) = none) →
      f (l.getD n d) = some v → probeFirst f l = some v
  | [], n, v, hn, _, _ => absurd hn (by simp)
  | x :: rest, 0, v, _, _, hv => by
      simp only [List.getD_cons_zero] at hv
      simp [probeFirst, probeFirstT, hv]
  | x :: rest, n + 1, v, hn, hnone, hv => by
      have hx : f x = none := by
        have := hnone 0 (Nat.succ_pos n)
        simpa using this
      have ih := probeFirst_getD_success f d rest n v
        (by simpa using Nat.lt_of_succ_lt_succ hn)
        (fun i hi => by
          have := hnone (i + 1) (Nat.succ_lt_succ hi)
          simpa using this)
        (by simpa using hv)
      simp only [probeFirst, probeFirstT, hx] at ih ⊢
      exact ih

theorem probeFirst_append_some {ι α : Type} (f : ι → Option α) (v : α) :
    ∀ l1 l2 : List ι, probeFirst f l1 = some v → probeFirst f (l1 ++ l2) = some v
  | [], _, h => by simp [probeFirst, probeFirstT] at h
  | x :: rest, l2, h => by
      cases hx : f x with
      | some w =>
          simp [probeFirst, probeFirstT, hx] at h ⊢
          exact h
      | none =>
          simp only [probeFirst, probeFirstT, hx] at h ⊢
          exact probeFirst_append_some f v rest l2 h

theorem probeFirst_append_none {ι α : Type} (f : ι → Option α) :
    ∀ l1 l2 : List ι, probeFirst f l1 = none → probeFirst f (l1 ++ l2) = probeFirst f l2
  | [], l2, _ => by simp [probeFirst]
  | x :: rest, l2, h => by
      cases hx : f x with
      | some w => simp [probeFirst, probeFirstT, hx] at h
      | none =>
          simp only [probeFirst, probeFirstT, hx] at h ⊢
          exact probeFirst_append_none f rest l2 h

theorem probeFirstT_trace_take {ι α : Type} (f : ι → Option α) :
    ∀ l : List ι, ∃ k, (probeFirstT f l).2 = l.take k
  | [] => ⟨0, rfl⟩
  | x :: rest => by
      cases hx : f x with
      | some v => exact ⟨1, by simp [probeFirstT, hx]⟩
      | none =>
          obtain ⟨k, hk⟩ := probeFirstT_trace_take f rest
          exact ⟨k + 1, by simp [probeFirstT, hx, hk]⟩

theorem probeFirstT_trace_subset {ι α : Type} (f : ι → Option α) :
    ∀ l : List ι, ∀ x ∈ (probeFirstT f l).2, x ∈ l := by
  intro l x hx
  obtain ⟨k, hk⟩ := probeFirstT_trace_take f l
  rw [hk] at hx
  exact List.mem_of_mem_take hx

theorem fetch_history_eq_probe (backend : String → ProbeResult) (agentId : Option String) :
    fetch_history backend agentId
      = (probeFirst (fun p => acceptHistory (backend p)) (historyCandidates agentId)).getD [] := by
  cases hg : probeFirst (fun p => acceptHistory (backend p)) historyGlobalCandidates with
  | some xs =>
      rw [historyCandidates.eq_def, probeFirst_append_some _ _ _ _ hg]
      simp only [fetch_history, hg, Option.getD_some]
  | none =>
      rw [historyCandidates.eq_def, probeFirst_append_none _ _ _ hg]
      simp only [fetch_history, hg]
      cases agentId with
      | none => rfl
      | some s =>
          by_cases hs : s.isEmpty
          · simp only [hs, if_true]
            rfl
          · simp only [hs, if_false, Bool.false_eq_true]
            cases hsc : probeFirst (fun p => acceptHistory (backend p)) (historyScopedCandidates s) with
            | some xs => rfl
            | none => rfl

theorem submitQueryT_fst_eq (backend : String → Json → ProbeResult) (agentId : Option String)
    (query : String) :
    (submitQueryT backend agentId query).1
      = (probeFirst (submitProbeStep backend) (submitCandidates agentId query)).getD submitErrorObj := by
  cases hg : probeFirst (submitProbeStep backend)
      (submitGlobalCandidates.map (fun p => (p, submitPayload agentId query))) with
  | some j =>
      rw [submitCandidates.eq_def, probeFirst_append_some _ _ _ _ hg]
      have hg1 : (probeFirstT (submitProbeStep backend)
          (submitGlobalCandidates.map (fun p => (p, submitPayload agentId query)))).1 = some j := hg
      simp only [submitQueryT, hg1, Option.getD_some]
  | none =>
      rw [submitCandidates.eq_def, probeFirst_append_none _ _ _ hg]
      have hg1 : (probeFirstT (submitProbeStep backend)
          (submitGlobalCandidates.map (fun p => (p, submitPayload agentId query)))).1 = none := hg
      simp only [submitQueryT, hg1]
      cases agentId with
      | none => rfl
      | some s =>
          by_cases hs : s.isEmpty
          · simp only [hs, if_true]
            rfl
          · simp only [hs, if_false, Bool.false_eq_true]
            cases hsc : probeFirst (submitProbeStep backend)
                ((submitScopedCandidates s).map (fun p => (p, Json.obj [("query", Json.str query)]))) with
            | some j =>
                have hsc1 : (probeFirstT (submitProbeStep backend)
                    ((submitScopedCandidates s).map (fun p => (p, Json.obj [("query", Json.str query)])))).1
                      = some j := hsc
                simp only [hsc1, Option.getD_some]
            | none =>
                have hsc1 : (probeFirstT (submitProbeStep backend)
                    ((submitScopedCandidates s).map (fun p => (p, Json.obj [("query", Json.str query)])))).1
                      = none := hsc
                simp only [hsc1, Option.getD_none]

theorem agentPathScan_prepends :
    ∀ (entries : List (String × Json)) (cs : List String),
      ∃ pre, (agentPathScan cs entries).1 = pre ++ cs
  | [], cs => ⟨[], rfl⟩
  | (p, v) :: rest, cs => by
      by_cases hp : pyStrIn "agent" (pyLower p) = true
      · cases hin : pyIn "get" v with
        | error e => exact ⟨[], by simp [agentPathScan, hp, hin]⟩
        | ok b =>
            cases b with
            | false =>
                obtain ⟨pre, hpre⟩ := agentPathScan_prepends rest cs
                exact ⟨pre, by simp [agentPathScan, hp, hin, hpre]⟩
            | true =>
                by_cases hmem : p ∈ cs
                · obtain ⟨pre, hpre⟩ := agentPathScan_prepends rest cs
                  exact ⟨pre, by simp [agentPathScan, hp, hin, hmem, hpre]⟩
                · obtain ⟨pre, hpre⟩ := agentPathScan_prepends rest (p :: cs)
                  refine ⟨pre ++ [p], ?_⟩
                  simp [agentPathScan, hp, hin, hmem, hpre]
      · obtain ⟨pre, hpre⟩ := agentPathScan_prepends rest cs
        exact ⟨pre, by simp [agentPathScan, hp, hpre]⟩

theorem agentPathScan_mem (entries : List (String × Json)) (cs : List String) (q : String)
    (h : q ∈ cs) : q ∈ (agentPathScan cs entries).1 := by
  obtain ⟨pre, hpre⟩ := agentPathScan_prepends entries cs
  rw [hpre]
  exact List.mem_append_right pre h

theorem listedBefore_cons {α : Type} (p q x : α) (l : List α)
    (h : listedBefore p q l) : listedBefore p q (x :: l) := by
  obtain ⟨l1, l2, hl, hq⟩ := h
  exact ⟨x :: l1, l2, by rw [hl]; rfl, hq⟩

theorem agentPathScan_listedBefore (p q : String) :
    ∀ (entries : List (String × Json)) (cs : List String),
      listedBefore p q cs → listedBefore p q (agentPathScan cs entries).1
  | [], cs, h => h
  | (x, v) :: rest, cs, h => by
      by_cases hx : pyStrIn "agent" (pyLower x) = true
      · cases hin : pyIn "get" v with
        | error e => simpa [agentPathScan, hx, hin] using h
        | ok b =>
            cases b with
            | false =>
                have := agentPathScan_listedBefore p q rest cs h
                simpa [agentPathScan, hx, hin] using this
            | true =>
                by_cases hmem : x ∈ cs
                · have := agentPathScan_listedBefore p q rest cs h
                  simpa [agentPathScan, hx, hin, hmem] using this
                · have := agentPathScan_listedBefore p q rest (x :: cs)
                    (listedBefore_cons p q x cs h)
                  simpa [agentPathScan, hx, hin, hmem] using this
      · have := agentPathScan_listedBefore p q rest cs h
        simpa [agentPathScan, hx] using this

theorem agentPathScan_nodup :
    ∀ (entries : List (String × Json)) (cs : List String),
      cs.Nodup → (agentPathScan cs entries).1.Nodup
  | [], cs, h => h
  | (x, v) :: rest, cs, h => by
      by_cases hx : pyStrIn "agent" (pyLower x) = true
      · cases hin : pyIn "get" v with
        | error e => simpa [agentPathScan, hx, hin] using h
        | ok b =>
            cases b with
            | false =>
                have := agentPathScan_nodup rest cs h
                simpa [agentPathScan, hx, hin] using this
            | true =>
                by_cases hmem : x ∈ cs
                · have := agentPathScan_nodup rest cs h
                  simpa [agentPathScan, hx, hin, hmem] using this
                · have := agentPathScan_nodup rest (x :: cs)
                    (List.nodup_cons.mpr ⟨hmem, h⟩)
                  simpa [agentPathScan, hx, hin, hmem] using this
      · have := agentPathScan_nodup rest cs h
        simpa [agentPathScan, hx] using this

theorem jlookup_isSome_iff_any (k : String) :
    ∀ kvs : List (String × Json), (jlookup k kvs).isSome = kvs.any (fun kv => kv.1 == k)
  | [] => rfl
  | (l, v) :: rest => by
      by_cases h : l = k
      · simp [jlookup, h]
      · simp [jlookup, h, jlookup_isSome_iff_any k rest]

theorem agentPathScan_inserts (p : String) (v : Json) :
    ∀ (E1 : List (String × Json)) (cs : List String) (E2 : List (String × Json)),
      (∀ e ∈ E1, ∃ w, e.2 = Json.obj w) →
      p ∉ cs → p ∉ E1.map Prod.fst →
      pyStrIn "agent" (pyLower p) = true →
      pyIn "get" v = Except.ok true →
      "/agents" ∈ cs → "/api/agents" ∈ cs →
      p ∈ (agentPathScan cs (E1 ++ (p, v) :: E2)).1
        ∧ listedBefore p "/agents" (agentPathScan cs (E1 ++ (p, v) :: E2)).1
        ∧ listedBefore p "/api/agents" (agentPathScan cs (E1 ++ (p, v) :: E2)).1
  | [], cs, E2, _, hpcs, _, hsub, hget, ha, hb => by
      have step : agentPathScan cs ([] ++ (p, v) :: E2) = agentPathScan (p :: cs) E2 := by
        simp [agentPathScan, hsub, hget, hpcs]
      rw [step]
      refine ⟨agentPathScan_mem _ _ _ (List.mem_cons_self p cs), ?_, ?_⟩
      · exact agentPathScan_listedBefore p "/agents" E2 (p :: cs) ⟨[], cs, rfl, ha⟩
      · exact agentPathScan_listedBefore p "/api/agents" E2 (p :: cs) ⟨[], cs, rfl, hb⟩
  | (k, w) :: E1, cs, E2, hobj, hpcs, hpE1, hsub, hget, ha, hb => by
      obtain ⟨wv, hw⟩ := hobj (k, w) (by simp)
      have hw2 : w = Json.obj wv := hw
      have hkin : pyIn "get" w = Except.ok (wv.any (fun kv => kv.1 == "get")) := by
        rw [hw2]; rfl
      have hpk : p ≠ k := fun h => hpE1 (by simp [h])
      have hpE1x : p ∉ E1.map Prod.fst := fun h => hpE1 (by simp [h])
      have hobjx : ∀ e ∈ E1, ∃ u, e.2 = Json.obj u := fun e he => hobj e (by simp [he])
      by_cases hks : pyStrIn "agent" (pyLower k) = true
      · cases hb2 : wv.any (fun kv => kv.1 == "get") with
        | false =>
            rw [hb2] at hkin
            have step : agentPathScan cs (((k, w) :: E1) ++ (p, v) :: E2)
                = agentPathScan cs (E1 ++ (p, v) :: E2) := by
              simp [agentPathScan, hks, hkin]
            rw [step]
            exact agentPathScan_inserts p v E1 cs E2 hobjx hpcs hpE1x hsub hget ha hb
        | true =>
            rw [hb2] at hkin
            by_cases hmem : k ∈ cs
            · have step : agentPathScan cs (((k, w) :: E1) ++ (p, v) :: E2)
                  = agentPathScan cs (E1 ++ (p, v) :: E2) := by
                simp [agentPathScan, hks, hkin, hmem]
              rw [step]
              exact agentPathScan_inserts p v E1 cs E2 hobjx hpcs hpE1x hsub hget ha hb
            · have step : agentPathScan cs (((k, w) :: E1) ++ (p, v) :: E2)
                  = agentPathScan (k :: cs) (E1 ++ (p, v) :: E2) := by
                simp [agentPathScan, hks, hkin, hmem]
              rw [step]
              exact agentPathScan_inserts p v E1 (k :: cs) E2 hobjx
                (by simp [hpk, hpcs])
                hpE1x hsub hget (by simp [ha]) (by simp [hb])
      · have step : agentPathScan cs (((k, w) :: E1) ++ (p, v) :: E2)
            = agentPathScan cs (E1 ++ (p, v) :: E2) := by
          simp [agentPathScan, hks]
        rw [step]
        exact agentPathScan_inserts p v E1 cs E2 hobjx hpcs hpE1x hsub hget ha hb

/-- Claim C1: for every ordered candidate list used by the probing
functions (fetch_agents, fetch_history, submit_query), if every candidate
before the Nth fails (transport error, unaccepted status code, or body of
the wrong shape) and the Nth candidate is accepted, the function returns
that Nth response's parsed payload; earlier failures are silently
skipped. -/
theorem c1_first_success_wins :
    (∀ (backend : String → ProbeResult) (api : Json) (n : Nat) (v : List Json),
        n < (buildAgentCandidates api).length →
        (∀ i, i < n → acceptAgents (backend ((buildAgentCandidates api).getD i "")) = none) →
        acceptAgents (backend ((buildAgentCandidates api).getD n "")) = some v →
        fetch_agents backend api = v)
  ∧ (∀ (backend : String → ProbeResult) (agentId : Option String) (n : Nat) (v : List Json),
        n < (historyCandidates agentId).length →
        (∀ i, i < n → acceptHistory (backend ((historyCandidates agentId).getD i "")) = none) →
        acceptHistory (backend ((historyCandidates agentId).getD n "")) = some v →
        fetch_history backend agentId = v)
  ∧ (∀ (backend : String → Json → ProbeResult) (agentId : Option String) (query : String)
        (n : Nat) (v : Json),
        n < (submitCandidates agentId query).length →
        (∀ i, i < n →
            submitProbeStep backend ((submitCandidates agentId query).getD i ("", Json.null)) = none) →
        submitProbeStep backend ((submitCandidates agentId query).getD n ("", Json.null)) = some v →
        submit_query backend agentId query = v) := by
  refine ⟨?_, ?_, ?_⟩
  · intro backend api n v hn hnone hv
    have h := probeFirst_getD_success (fun p => acceptAgents (backend p)) ""
      (buildAgentCandidates api) n v hn hnone hv
    simp [fetch_agents, h]
  · intro backend agentId n v hn hnone hv
    have h := probeFirst_getD_success (fun p => acceptHistory (backend p)) ""
      (historyCandidates agentId) n v hn hnone hv
    rw [fetch_history_eq_probe, h]
    rfl
  · intro backend agentId query n v hn hnone hv
    have h := probeFirst_getD_success (submitProbeStep backend) ("", Json.null)
      (submitCandidates agentId query) n v hn hnone hv
    show (submitQueryT backend agentId query).1 = v
    rw [submitQueryT_fst_eq, h]
    rfl

/-- Witness for C1: each prober applied where its first candidate
succeeds outright. -/
theorem c1_first_success_wins_witness :
    fetch_agents (fun _ => ProbeResult.response 200 (some (Json.arr [Json.num 1])))
        (Json.obj []) = [Json.num 1]
      ∧ fetch_history (fun _ => ProbeResult.response 200 (some (Json.arr []))) none = []
      ∧ submit_query (fun _ _ => ProbeResult.response 200 (some (Json.num 7))) none "hi"
          = Json.num 7 := by
  refine ⟨c1_first_success_wins.1 _ (Json.obj []) 0 _ (by decide)
            (fun i hi => absurd hi (Nat.not_lt_zero i)) (by rfl),
          c1_first_success_wins.2.1 _ none 0 _ (by decide)
            (fun i hi => absurd hi (Nat.not_lt_zero i)) (by rfl),
          c1_first_success_wins.2.2 _ none "hi" 0 _ (by decide)
            (fun i hi => absurd hi (Nat.not_lt_zero i)) (by rfl)⟩

/-- Claim C2: when no candidate endpoint succeeds, fetch_agents and
fetch_history return an empty list and submit_query returns a dictionary
containing an `error` key. -/
theorem c2_uniform_failure :
    ∀ (bg : String → ProbeResult) (bp : String → Json → ProbeResult) (api : Json)
      (aidS aidH : Option String) (query : String),
      (∀ p, acceptAgents (bg p) = none) →
      (∀ p, acceptHistory (bg p) = none) →
      (∀ p pl, acceptSubmit (bp p pl) = none) →
      fetch_agents bg api = []
        ∧ fetch_history bg aidH = []
        ∧ submit_query bp aidS query = submitErrorObj
        ∧ ∃ kvs, submit_query bp aidS query = Json.obj kvs
            ∧ (jlookup "error" kvs).isSome = true := by
  intro bg bp api aidS aidH query hA hH hS
  have h1 : probeFirst (fun p => acceptAgents (bg p)) (buildAgentCandidates api) = none :=
    probeFirst_of_forall_none _ _ (fun x _ => hA x)
  have h2 : probeFirst (fun p => acceptHistory (bg p)) (historyCandidates aidH) = none :=
    probeFirst_of_forall_none _ _ (fun x _ => hH x)
  have h3 : probeFirst (submitProbeStep bp) (submitCandidates aidS query) = none :=
    probeFirst_of_forall_none _ _ (fun c _ => hS c.1 c.2)
  have hq : submit_query bp aidS query = submitErrorObj := by
    show (submitQueryT bp aidS query).1 = submitErrorObj
    rw [submitQueryT_fst_eq, h3]
    rfl
  refine ⟨?_, ?_, hq, ?_⟩
  · simp [fetch_agents, h1]
  · rw [fetch_history_eq_probe, h2]
    rfl
  · exact ⟨[("error",
        Json.str "Unable to submit query to backend. Please verify API endpoints.")], hq, rfl⟩

/-- Witness for C2: a backend that always raises a transport error. -/
theorem c2_uniform_failure_witness :
    fetch_agents (fun _ => ProbeResult.transportError) (Json.obj []) = []
      ∧ fetch_history (fun _ => ProbeResult.transportError) (some "a") = []
      ∧ submit_query (fun _ _ => ProbeResult.transportError) (some "a") "q" = submitErrorObj
      ∧ ∃ kvs, submit_query (fun _ _ => ProbeResult.transportError) (some "a") "q" = Json.obj kvs
          ∧ (jlookup "error" kvs).isSome = true :=
  c2_uniform_failure (fun _ => ProbeResult.transportError)
    (fun _ _ => ProbeResult.transportError) (Json.obj []) (some "a") (some "a") "q"
    (fun _ => rfl) (fun _ => rfl) (fun _ _ => rfl)

/-- Counterexample to C3 as stated: the "Load History" action on a
one-entry log, with a backend whose every candidate fails, *replaces* the
log with the fetched empty list — neither an append nor a no-op. -/
theorem c3_counterexample_load_replaces :
    applySessionOp [Json.null]
        (SessionOp.loadHistoryAction (fun _ => ProbeResult.transportError) none) = []
      ∧ ¬ (applySessionOp [Json.null]
              (SessionOp.loadHistoryAction (fun _ => ProbeResult.transportError) none)
            = [Json.null]
          ∨ ∃ x, applySessionOp [Json.null]
              (SessionOp.loadHistoryAction (fun _ => ProbeResult.transportError) none)
            = [Json.null] ++ [x]) := by
  have h : applySessionOp [Json.null]
      (SessionOp.loadHistoryAction (fun _ => ProbeResult.transportError) none)
      = ([] : List Json) := rfl
  refine ⟨h, ?_⟩
  rw [h]
  rintro (h1 | ⟨x, h2⟩)
  · exact List.cons_ne_nil Json.null [] h1.symm
  · simp at h2

/-- Claim C3 (amended): submitting a query appends exactly one interaction
to the end of the log and the refresh action leaves it unchanged, but the
"Load History" action replaces the whole log with the backend-fetched
list; trimming to the last 10 (sidebar) or 5 ("Recent Interactions")
entries happens only in the display layer, which shows a reversed suffix
of the log without modifying it. -/
theorem c3_amended_log_ops :
    (∀ (log : List Json) (backend : String → Json → ProbeResult) (aid : Option String)
        (q : String) (ts lat : Int),
        applySessionOp log (SessionOp.submitAction backend aid q ts lat)
          = log ++ [interactionEntry aid q (submit_query backend aid q) ts lat])
  ∧ (∀ log : List Json, applySessionOp log SessionOp.refreshAction = log)
  ∧ (∀ (log : List Json) (backend : String → ProbeResult) (aid : Option String),
        applySessionOp log (SessionOp.loadHistoryAction backend aid) = fetch_history backend aid)
  ∧ (∀ log : List Json, (sidebarHistoryView log).reverse = log.drop (log.length - 10)
        ∧ (sidebarHistoryView log).length ≤ 10)
  ∧ (∀ log : List Json, (recentInteractionsView log).reverse = log.drop (log.length - 5)
        ∧ (recentInteractionsView log).length ≤ 5) := by
  refine ⟨fun _ _ _ _ _ _ => rfl, fun _ => rfl, fun _ _ _ => rfl, ?_, ?_⟩
  · intro log
    constructor
    · simp [sidebarHistoryView, takeLast]
    · simp only [sidebarHistoryView, takeLast, List.length_reverse, List.length_drop]
      omega
  · intro log
    constructor
    · simp [recentInteractionsView, takeLast]
    · simp only [recentInteractionsView, takeLast, List.length_reverse, List.length_drop]
      omega

/-- Claim C4: a path of the OpenAPI path table that contains "agent"
(case-insensitively) and declares a GET operation is probed by
fetch_agents before both fixed fallback paths, and a path already in the
candidate list is never inserted twice (the resulting list has no
duplicates). -/
theorem c4_openapi_path_bias :
    ∀ (api : Json) (A P : List (String × Json)) (p : String) (v : Json),
      api = Json.obj A →
      jlookup "paths" A = some (Json.obj P) →
      (∀ e ∈ P, ∃ w, e.2 = Json.obj w) →
      (P.map Prod.fst).Nodup →
      (p, v) ∈ P →
      pyStrIn "agent" (pyLower p) = true →
      (∃ w, v = Json.obj w ∧ (jlookup "get" w).isSome = true) →
      p ∉ fixedAgentCandidates →
      p ∈ buildAgentCandidates api
        ∧ listedBefore p "/agents" (buildAgentCandidates api)
        ∧ listedBefore p "/api/agents" (buildAgentCandidates api)
        ∧ (buildAgentCandidates api).Nodup := by
  intro api A P p v hapi hpaths hobj hnodup hmem hsub hget hnotfixed
  obtain ⟨w, hv, hw⟩ := hget
  have hany : w.any (fun kv => kv.1 == "get") = true := by
    rw [← jlookup_isSome_iff_any]
    exact hw
  have hpyin : pyIn "get" v = Except.ok true := by
    rw [hv]
    simp [pyIn, hany]
  obtain ⟨E1, E2, hP⟩ := List.append_of_mem hmem
  subst hP
  rw [List.map_append] at hnodup
  have hdisj := (List.nodup_append.mp hnodup).2.2
  have hpE1 : p ∉ E1.map Prod.fst := fun hp => hdisj hp (by simp)
  have hobj1 : ∀ e ∈ E1, ∃ u, e.2 = Json.obj u := fun e he => hobj e (by simp [he])
  have hbc : buildAgentCandidates api
      = (agentPathScan fixedAgentCandidates (E1 ++ (p, v) :: E2)).1 := by
    rw [hapi]
    simp [buildAgentCandidates, buildAgentCandidatesE, hpaths]
  have hins := agentPathScan_inserts p v E1 fixedAgentCandidates E2 hobj1
    hnotfixed hpE1 hsub hpyin (by simp [fixedAgentCandidates])
    (by simp [fixedAgentCandidates])
  have hnd2 := agentPathScan_nodup (E1 ++ (p, v) :: E2) fixedAgentCandidates (by decide)
  rw [hbc]
  exact ⟨hins.1, hins.2.1, hins.2.2, hnd2⟩

/-- Witness for C4: a one-entry path table whose key "/v1/agentlist"
declares GET; it ends up ahead of both fixed fallbacks. -/
theorem c4_openapi_path_bias_witness :
    "/v1/agentlist" ∈ buildAgentCandidates
        (Json.obj [("paths", Json.obj [("/v1/agentlist", Json.obj [("get", Json.obj [])])])])
      ∧ listedBefore "/v1/agentlist" "/agents" (buildAgentCandidates
          (Json.obj [("paths", Json.obj [("/v1/agentlist", Json.obj [("get", Json.obj [])])])]))
      ∧ listedBefore "/v1/agentlist" "/api/agents" (buildAgentCandidates
          (Json.obj [("paths", Json.obj [("/v1/agentlist", Json.obj [("get", Json.obj [])])])]))
      ∧ (buildAgentCandidates
          (Json.obj [("paths", Json.obj [("/v1/agentlist", Json.obj [("get", Json.obj [])])])])).Nodup :=
  c4_openapi_path_bias
    (Json.obj [("paths", Json.obj [("/v1/agentlist", Json.obj [("get", Json.obj [])])])])
    [("paths", Json.obj [("/v1/agentlist", Json.obj [("get", Json.obj [])])])]
    [("/v1/agentlist", Json.obj [("get", Json.obj [])])]
    "/v1/agentlist" (Json.obj [("get", Json.obj [])])
    rfl rfl
    (by intro e he; exact ⟨[("get", Json.obj [])], by simp at he; rw [he]⟩)
    (by decide) (by simp) (by decide)
    ⟨[("get", Json.obj [])], rfl, rfl⟩
    (by decide)

/-- Counterexample to C5 as stated: a path table whose second entry makes
the traversal raise (value 5 supports no membership test) still keeps the
already-prepended first path, so the ordering is not the fixed fallback
list. -/
theorem c5_counterexample_partial_bias :
    (buildAgentCandidatesE (Json.obj [("paths", Json.obj
        [("/agent1", Json.obj [("get", Json.obj [])]), ("/agent2", Json.num 5)])])).2 = true
      ∧ buildAgentCandidates (Json.obj [("paths", Json.obj
          [("/agent1", Json.obj [("get", Json.obj [])]), ("/agent2", Json.num 5)])])
        ≠ fixedAgentCandidates
      ∧ "/agent1" ∈ buildAgentCandidates (Json.obj [("paths", Json.obj
          [("/agent1", Json.obj [("get", Json.obj [])]), ("/agent2", Json.num 5)])]) := by
  refine ⟨by decide, by decide, by decide⟩

/-- Claim C5 (amended): a parse error during the path-table traversal is
swallowed and the two fixed fallback paths always remain the tail of the
candidate ordering; the ordering is *exactly* the fixed list whenever the
error strikes before any insertion — in particular whenever the "paths"
value is not a mapping at all.  Paths already prepended before the error
remain. -/
theorem c5_amended_error_swallowed :
    ∀ api : Json,
      (∃ pre, buildAgentCandidates api = pre ++ fixedAgentCandidates)
        ∧ (∀ (A : List (String × Json)) (v : Json), api = Json.obj A →
            jlookup "paths" A = some v → (∀ kvs, v ≠ Json.obj kvs) →
            buildAgentCandidatesE api = (fixedAgentCandidates, true)) := by
  intro api
  constructor
  · cases api with
    | obj kvs =>
        cases hp : jlookup "paths" kvs with
        | some v =>
            cases v with
            | obj P =>
                have h := agentPathScan_prepends P fixedAgentCandidates
                simpa [buildAgentCandidates, buildAgentCandidatesE, hp] using h
            | null => exact ⟨[], by simp [buildAgentCandidates, buildAgentCandidatesE, hp]⟩
            | bool b => exact ⟨[], by simp [buildAgentCandidates, buildAgentCandidatesE, hp]⟩
            | num n => exact ⟨[], by simp [buildAgentCandidates, buildAgentCandidatesE, hp]⟩
            | str s => exact ⟨[], by simp [buildAgentCandidates, buildAgentCandidatesE, hp]⟩
            | arr xs => exact ⟨[], by simp [buildAgentCandidates, buildAgentCandidatesE, hp]⟩
        | none => exact ⟨[], by simp [buildAgentCandidates, buildAgentCandidatesE, hp]⟩
    | null => exact ⟨[], rfl⟩
    | bool b => exact ⟨[], rfl⟩
    | num n => exact ⟨[], rfl⟩
    | str s => exact ⟨[], rfl⟩
    | arr xs => exact ⟨[], rfl⟩
  · intro A v hA hp hnot
    subst hA
    cases v with
    | obj P => exact absurd rfl (hnot P)
    | null => simp [buildAgentCandidatesE, hp]
    | bool b => simp [buildAgentCandidatesE, hp]
    | num n => simp [buildAgentCandidatesE, hp]
    | str s => simp [buildAgentCandidatesE, hp]
    | arr xs => simp [buildAgentCandidatesE, hp]

/-- Witness for C5's amended claim: a document whose "paths" value is the
number 3 — the traversal raises before any insertion and the ordering is
exactly the fixed list, with the exception swallowed. -/
theorem c5_amended_error_swallowed_witness :
    buildAgentCandidatesE (Json.obj [("paths", Json.num 3)]) = (fixedAgentCandidates, true) :=
  (c5_amended_error_swallowed (Json.obj [("paths", Json.num 3)])).2
    [("paths", Json.num 3)] (Json.num 3) rfl rfl (fun _ h => Json.noConfusion h)

/-- Counterexample to C6 as stated: an agent record carrying only a
`label` field.  The claim's priority order (id, agent_id, name, label)
would make "L" the identity; the code (line 270) never consults `label`
and stores Python `None`. -/
theorem c6_counterexample_label_ignored :
    claimedAgentIdentityC6 [("label", Json.str "L")] = some (Json.str "L")
      ∧ agentIdentity [("label", Json.str "L")] = Json.null
      ∧ Json.null ≠ Json.str "L" := by
  refine ⟨by decide, by decide, by decide⟩

/-- Claim C6 (amended): the agent identity used for selection and
submissions is the first *truthy* field in the priority order id,
agent_id, name (falling back to the `name` value, i.e. `None` when
absent); the `label` field is never consulted. -/
theorem c6_amended_identity_rule :
    (∀ a : List (String × Json), agentIdentity a = specAgentIdentity a)
      ∧ (∀ (a : List (String × Json)) (v : Json),
          agentIdentity (("label", v) :: a) = agentIdentity a) := by
  constructor
  · intro a
    rfl
  · intro a v
    simp [agentIdentity, pyGetD, jlookup]

/-- Claim C7: rendering `{"answer": "X", "sources": [{"title": "T",
"url": "U"}]}` emits the primary text "X", a reference link labelled "T"
pointing to "U", and a raw-JSON view containing the original object. -/
theorem c7_render_answer_and_source :
    RenderEvent.markdown "X" ∈ renderResponse (Json.obj [("answer", Json.str "X"),
        ("sources", Json.arr [Json.obj [("title", Json.str "T"), ("url", Json.str "U")]])])
      ∧ RenderEvent.refLink (Json.str "T") (Json.str "U")
          ∈ renderResponse (Json.obj [("answer", Json.str "X"),
              ("sources", Json.arr [Json.obj [("title", Json.str "T"), ("url", Json.str "U")]])])
      ∧ RenderEvent.jsonView (Json.obj [("answer", Json.str "X"),
            ("sources", Json.arr [Json.obj [("title", Json.str "T"), ("url", Json.str "U")]])])
          ∈ renderResponse (Json.obj [("answer", Json.str "X"),
              ("sources", Json.arr [Json.obj [("title", Json.str "T"), ("url", Json.str "U")]])]) := by
  refine ⟨by decide, by decide, by decide⟩

/-- Claim C8: rendering `[1, "two", {"content": "three"}]` emits three
positionally labelled items and the third displays the text "three"
pulled from its `content` key; the full event sequence is pinned. -/
theorem c8_render_list_items :
    renderResponse (Json.arr [Json.num 1, Json.str "two", Json.obj [("content", Json.str "three")]])
      = [RenderEvent.markdown "**Item 1**", RenderEvent.writeStr (Json.num 1),
         RenderEvent.markdown "**Item 2**", RenderEvent.writeStr (Json.str "two"),
         RenderEvent.markdown "**Item 3**",
         RenderEvent.markdown "<div class=\"ocean-card\">", RenderEvent.markdown "three",
         RenderEvent.markdown "</div>",
         RenderEvent.jsonView (Json.obj [("content", Json.str "three")])]
      ∧ RenderEvent.markdown "**Item 4**"
          ∉ renderResponse (Json.arr [Json.num 1, Json.str "two",
              Json.obj [("content", Json.str "three")]]) := by
  refine ⟨by decide, by decide⟩

theorem globalQueryPathsNotScoped (s : String) :
    "/query" ∉ submitScopedCandidates s ∧ "/api/query" ∉ submitScopedCandidates s := by
  have h1 : ("/query" : String).length = 6 := rfl
  have h2 : ("/api/query" : String).length = 10 := rfl
  have h3 : ("/agents/" : String).length = 8 := rfl
  have h4 : ("/api/agents/" : String).length = 12 := rfl
  constructor <;>
    · simp only [submitScopedCandidates, List.mem_cons, List.not_mem_nil, or_false,
        List.mem_singleton]
      push_neg
      constructor <;>
        · intro h
          apply_fun String.length at h
          simp only [String.length_append, h1, h2, h3, h4] at h
          omega

/-- Claim C9: when `agent_id` is None or empty, the request payload holds
only the `query` key, the attempted requests are an initial segment of
the two global candidates, and no agent-scoped path is ever probed. -/
theorem c9_no_scoped_probe_when_untruthy :
    ∀ (backend : String → Json → ProbeResult) (agentId : Option String) (query : String),
      pyTruthyStr agentId = false →
      submitPayload agentId query = Json.obj [("query", Json.str query)]
        ∧ (∃ k, submitAttempts backend agentId query
            = (submitGlobalCandidates.map (fun p => (p, Json.obj [("query", Json.str query)]))).take k)
        ∧ (∀ c ∈ submitAttempts backend agentId query,
            (c.1 = "/query" ∨ c.1 = "/api/query")
              ∧ c.2 = Json.obj [("query", Json.str query)]
              ∧ ∀ s : String, c.1 ∉ submitScopedCandidates s) := by
  intro backend agentId query h
  have hpl : submitPayload agentId query = Json.obj [("query", Json.str query)] := by
    cases agentId with
    | none => rfl
    | some s =>
        have hs : s.isEmpty = true := by simpa [pyTruthyStr] using h
        simp [submitPayload, hs]
  have hatt : submitAttempts backend agentId query
      = (probeFirstT (submitProbeStep backend)
          (submitGlobalCandidates.map (fun p => (p, submitPayload agentId query)))).2 := by
    unfold submitAttempts submitQueryT
    cases hr : (probeFirstT (submitProbeStep backend)
        (submitGlobalCandidates.map (fun p => (p, submitPayload agentId query)))).1 with
    | some j => simp [hr]
    | none =>
        cases agentId with
        | none => simp [hr]
        | some s =>
            have hs : s.isEmpty = true := by simpa [pyTruthyStr] using h
            simp [hr, hs]
  rw [hpl] at hatt
  refine ⟨hpl, ?_, ?_⟩
  · rw [hatt]
    exact probeFirstT_trace_take _ _
  · intro c hc
    rw [hatt] at hc
    have hcl := probeFirstT_trace_subset _ _ c hc
    simp only [submitGlobalCandidates, List.map_cons, List.map_nil, List.mem_cons,
      List.not_mem_nil, or_false, List.mem_singleton] at hcl
    rcases hcl with hcl | hcl <;> subst hcl
    · exact ⟨Or.inl rfl, rfl, fun s => (globalQueryPathsNotScoped s).1⟩
    · exact ⟨Or.inr rfl, rfl, fun s => (globalQueryPathsNotScoped s).2⟩

/-- Witness for C9: a transport-failing backend with no agent selected:
both global candidates are attempted, neither is agent-scoped. -/
theorem c9_no_scoped_probe_witness :
    submitPayload none "hi" = Json.obj [("query", Json.str "hi")]
      ∧ (∃ k, submitAttempts (fun _ _ => ProbeResult.transportError) none "hi"
          = (submitGlobalCandidates.map (fun p => (p, Json.obj [("query", Json.str "hi")]))).take k)
      ∧ (∀ c ∈ submitAttempts (fun _ _ => ProbeResult.transportError) none "hi",
          (c.1 = "/query" ∨ c.1 = "/api/query")
            ∧ c.2 = Json.obj [("query", Json.str "hi")]
            ∧ ∀ s : String, c.1 ∉ submitScopedCandidates s) :=
  c9_no_scoped_probe_when_untruthy (fun _ _ => ProbeResult.transportError) none "hi" rfl

/-- Claim C10: any candidate whose POST response has status 200 or 201
and a JSON-parsable body makes submit_query return that parsed body
verbatim — no shape validation, so the result need not be a dict. -/
theorem c10_verbatim_json_body :
    ∀ (backend : String → Json → ProbeResult) (agentId : Option String) (query : String)
      (n responseStatus : Nat) (j : Json),
      n < (submitCandidates agentId query).length →
      (∀ i, i < n →
          submitProbeStep backend ((submitCandidates agentId query).getD i ("", Json.null)) = none) →
      backend ((submitCandidates agentId query).getD n ("", Json.null)).1
          ((submitCandidates agentId query).getD n ("", Json.null)).2
        = ProbeResult.response responseStatus (some j) →
      (responseStatus = 200 ∨ responseStatus = 201) →
      submit_query backend agentId query = j := by
  intro backend agentId query n responseStatus j hn hprev hresp hstatus
  have hacc : submitProbeStep backend
      ((submitCandidates agentId query).getD n ("", Json.null)) = some j := by
    unfold submitProbeStep
    rw [hresp]
    rcases hstatus with h | h <;> subst h <;> simp [acceptSubmit]
  have h := probeFirst_getD_success (submitProbeStep backend) ("", Json.null)
    (submitCandidates agentId query) n j hn hprev hacc
  show (submitQueryT backend agentId query).1 = j
  rw [submitQueryT_fst_eq, h]
  rfl

/-- Witness for C10: the first candidate answers 201 with a JSON list
body, and submit_query returns that list — not a dictionary. -/
theorem c10_verbatim_json_body_witness :
    submit_query
        (fun p _ => if p = "/query" then ProbeResult.response 201 (some (Json.arr [Json.str "not-a-dict"]))
          else ProbeResult.transportError) none "q"
      = Json.arr [Json.str "not-a-dict"]
      ∧ ∀ kvs, Json.arr [Json.str "not-a-dict"] ≠ Json.obj kvs :=
  ⟨c10_verbatim_json_body _ none "q" 0 201 _ (by decide)
      (fun i hi => absurd hi (Nat.not_lt_zero i)) (by rfl) (Or.inr rfl),
   fun _ h => Json.noConfusion h⟩
